import Mathlib

/-!
Shallow embedding of src/src/main.rs (a command-line S3 exerciser built on
the aws-sdk-s3 crate). The SDK itself is an external collaborator: its
transport behaviour is passed in as oracles (functions from requests to
responses), and the Debug rendering of SDK values is modelled as a string
field carried by the value, since the program only ever consumes SDK
responses and errors through the Rust formatter (the
code writes them with a debug format directive). Pure functions of the
program become Lean functions; the request traffic each function emits is
returned explicitly as a list of requests, and a Rust panic (an unwrap on
the failing case) becomes a dedicated panicked outcome, distinct from the
ordinary Ok and Err values of a Rust Result.
-/

namespace S3M

/-- HTTP-level request a facade call hands to the SDK, as observable at the
transport boundary: the operation, bucket, key and body the code sets on the
fluent builder before calling send. -/
inductive Request where
  | listObjectsV2 (bucket : String) (continuationToken : Option String)
  | headObject (bucket : String) (key : String)
  | putObject (bucket : String) (key : String) (body : List UInt8)
  | deleteObject (bucket : String) (key : String)
  deriving DecidableEq

/-- One entry of a ListObjectsV2 response. In the aws-sdk-s3 generated types
the key of an Object is an Option over strings, which is why the source
calls unwrap on it. -/
structure Object where
  key : Option String
  deriving DecidableEq

/-- The ListObjectsV2 response as the program consumes it: the contents
slice is optional (the code calls unwrap_or_default on it) and the response
may carry a continuation token for the next page. -/
structure ListObjectsV2Output where
  contents : Option (List Object)
  next_continuation_token : Option String
  deriving DecidableEq

/-- An SDK error value. The program only ever formats it with the debug
directive, so the model keeps that rendering as the dbg field; the status
records the HTTP status of the underlying response when there is one, which
the program never inspects. -/
structure SdkError where
  status : Option Nat
  dbg : String
  deriving DecidableEq

/-- HeadObject response; the program only debug-formats it. -/
structure HeadObjectOutput where
  dbg : String
  deriving DecidableEq

/-- PutObject response; the program only debug-formats it. -/
structure PutObjectOutput where
  dbg : String
  deriving DecidableEq

/-- DeleteObject response; the program only debug-formats it. -/
structure DeleteObjectOutput where
  dbg : String
  deriving DecidableEq

/-- The bytes a successfully opened ByteStream will stream from the local
file. -/
structure ByteStreamV where
  bytes : List UInt8
  deriving DecidableEq

/-- The S3Result enum of the source, constructor for constructor, each
carrying the formatted message string the source builds. -/
inductive S3Result where
  | DeleteFailure (msg : String)
  | FileOpenFail (msg : String)
  | HeadError (msg : String)
  | Success
  | UploadFailure (msg : String)
  deriving DecidableEq

/-- Constructor tags of S3Result, used to speak about the kind of an error
independently of the message it carries. -/
inductive S3Kind where
  | deleteFailure
  | fileOpenFail
  | headError
  | success
  | uploadFailure
  deriving DecidableEq

/-- The constructor tag of an S3Result value. -/
def S3Result.kind : S3Result → S3Kind
  | .DeleteFailure _ => .deleteFailure
  | .FileOpenFail _ => .fileOpenFail
  | .HeadError _ => .headError
  | .Success => .success
  | .UploadFailure _ => .uploadFailure

/-- The constructor tag of the error inside a Result, when it is an error. -/
def errKind : Except S3Result String → Option S3Kind
  | .error e => some e.kind
  | .ok _ => none

/-- Outcome of running a piece of code that can return a value, return an
error, or panic (a Rust unwrap on the failing case aborts the process and
produces no value at all). -/
inductive RunResult (ε α : Type) where
  | ok (a : α)
  | err (e : ε)
  | panicked
  deriving DecidableEq

/-- True exactly when the run produced an ordinary success value. -/
def RunResult.isOkB : RunResult ε α → Bool
  | .ok _ => true
  | _ => false

/-- True exactly when the run produced an ordinary error value. -/
def RunResult.isErrB : RunResult ε α → Bool
  | .err _ => true
  | _ => false

/-- True exactly when an Except is the ok constructor. -/
def isOkE : Except ε α → Bool
  | .ok _ => true
  | .error _ => false

/-- The function list_objects of the source. It issues exactly one
ListObjectsV2 request for the bucket, with no continuation token, prints the
key of every object of that single response (unwrap_or_default on the
missing contents, unwrap on each key, so a keyless object panics), and
returns Ok. The printed keys, in order, are the observable success value
here; the partial lines printed before a panic are not retained by the
model. -/
def list_objects (bucket_name : String)
    (pages : Option String → Except SdkError ListObjectsV2Output) :
    List Request × RunResult SdkError (List String) :=
  ([Request.listObjectsV2 bucket_name none],
    match pages none with
    | .error e => RunResult.err e
    | .ok objects =>
      let objs := (objects.contents).getD []
      if objs.all (fun o => o.key.isSome) then
        RunResult.ok (objs.filterMap (fun o => o.key))
      else RunResult.panicked)

/-- Modelled from the spec: the paginating list operation the spec
describes, which follows the continuation token of each response until it is
absent and concatenates the object summaries of every page in order. This
definition exists only for comparison with the list_objects of the source;
the fuel argument bounds the recursion. -/
def list_objects_paginated
    (pages : Option String → Except SdkError ListObjectsV2Output) :
    Nat → Option String → Except SdkError (List String)
  | 0, _ => .error ⟨none, "page limit exhausted"⟩
  | fuel + 1, tok =>
    match pages tok with
    | .error e => .error e
    | .ok out =>
      let keys := ((out.contents).getD []).filterMap (fun o => o.key)
      match out.next_continuation_token with
      | none => .ok keys
      | some t =>
        match list_objects_paginated pages fuel (some t) with
        | .error e => .error e
        | .ok rest => .ok (keys ++ rest)

/-- The function s3_head_file of the source: one HeadObject request; on
success the debug-formatted response string, on any SDK error a HeadError
whose message is the fixed prefix followed by the debug rendering of the
error. -/
def s3_head_file (filename : String) (bucket : String)
    (send : Except SdkError HeadObjectOutput) :
    List Request × Except S3Result String :=
  ([Request.headObject bucket filename],
    match send with
    | .ok response => .ok response.dbg
    | .error error =>
      .error (S3Result.HeadError ("Failed head_object() file: " ++ error.dbg)))

/-- The function s3_upload_file of the source: first ByteStream::from_path
on the local file; if that fails the function returns FileOpenFail at once
and no PutObject request is issued. Otherwise one PutObject request carries
the streamed bytes; success yields the debug-formatted response, an SDK
error yields UploadFailure with the fixed prefix and the debug rendering of
the error. -/
def s3_upload_file (filename : String) (bucket : String)
    (from_path : Except String ByteStreamV)
    (send : ByteStreamV → Except SdkError PutObjectOutput) :
    List Request × Except S3Result String :=
  match from_path with
  | .error error =>
    ([], .error (S3Result.FileOpenFail ("Failed to open file: " ++ error)))
  | .ok bytestream =>
    ([Request.putObject bucket filename bytestream.bytes],
      match send bytestream with
      | .ok response => .ok response.dbg
      | .error error =>
        .error (S3Result.UploadFailure ("Failed to upload file: " ++ error.dbg)))

/-- The function s3_delete_file of the source: one DeleteObject request; on
success the debug-formatted response, on an SDK error a DeleteFailure whose
message keeps the copy-pasted upload prefix the source uses. -/
def s3_delete_file (filename : String) (bucket : String)
    (send : Except SdkError DeleteObjectOutput) :
    List Request × Except S3Result String :=
  ([Request.deleteObject bucket filename],
    match send with
    | .ok response => .ok response.dbg
    | .error error =>
      .error (S3Result.DeleteFailure ("Failed to upload file: " ++ error.dbg)))

/-- The static credentials the program builds from the configuration. -/
structure Credentials where
  access_key_id : String
  secret_access_key : String
  session_token : Option String
  deriving DecidableEq

/-- Credentials::from_keys of the aws-types crate as the program uses it:
it packs the two keys and the (always absent here) session token. -/
def Credentials.from_keys (a s : String) (tok : Option String) : Credentials :=
  ⟨a, s, tok⟩

/-- The S3Configuration struct of the source: four mandatory string fields
and an optional endpoint override. -/
structure S3Configuration where
  backup_s3_access_key_id : String
  backup_s3_secret_access_key : String
  backup_s3_bucket : String
  backup_s3_region : String
  backup_s3_endpoint : Option String
  deriving DecidableEq

/-- The configuration file contents, abstracted to which of the five fields
it defines and with what string value. -/
structure RawConfig where
  access_key_id : Option String
  secret_access_key : Option String
  bucket : Option String
  region : Option String
  endpoint : Option String
  deriving DecidableEq

/-- Deserialization of the configuration file into S3Configuration,
following the serde Deserialize derive on the struct: every field whose type
is not an Option must be present for the parse to succeed, while the
optional endpoint may be absent. -/
def S3Configuration.from_toml (raw : RawConfig) : Option S3Configuration :=
  match raw.access_key_id, raw.secret_access_key, raw.bucket, raw.region with
  | some a, some s, some b, some r => some ⟨a, s, b, r, raw.endpoint⟩
  | _, _, _, _ => none

/-- Outcome of a startup step that either produces a value or panics (the
source unwraps the failing case, aborting the process without returning any
error value). -/
inductive StartupStep (α : Type) where
  | ok (a : α)
  | panicked
  deriving DecidableEq

/-- S3Configuration::new of the source: parse the configuration file and
unwrap the result, so a parse failure panics after printing the error to
stderr (the model assumes the file itself opened; the unwrap on the file
open panics the same way). -/
def S3Configuration.new (raw : RawConfig) : StartupStep S3Configuration :=
  match S3Configuration.from_toml raw with
  | some cfg => .ok cfg
  | none => .panicked

/-- A parsed endpoint URI, kept opaque: the program only hands it to the
SDK. -/
structure Uri where
  raw : String
  deriving DecidableEq

/-- The configured SDK client the program builds: credentials, region, and
the optional resolved endpoint override (none means the SDK default
endpoint). -/
structure Client where
  creds : Credentials
  region : String
  endpoint : Option Uri
  deriving DecidableEq

/-- The function get_client of the source: it always sets credentials and
region; when an endpoint override is present it parses it with
Uri::from_str and unwraps, so an unparseable override panics; when the
override is absent no parse is attempted and the default endpoint is kept.
The URI parser of the http crate is an external collaborator, passed in as
an oracle. -/
def get_client (uriFromStr : String → Option Uri) (creds : Credentials)
    (region : String) (endpoint : Option String) : StartupStep Client :=
  match endpoint with
  | some s =>
    match uriFromStr s with
    | some uri => .ok ⟨creds, region, some uri⟩
    | none => .panicked
  | none => .ok ⟨creds, region, none⟩

/-- The debug rendering of an S3Result value, as the derived Debug
implementation prints it (string escaping inside the message is not
modelled). -/
def S3Result.debugFmt : S3Result → String
  | .DeleteFailure m => "DeleteFailure(\"" ++ m ++ "\")"
  | .FileOpenFail m => "FileOpenFail(\"" ++ m ++ "\")"
  | .HeadError m => "HeadError(\"" ++ m ++ "\")"
  | .Success => "Success"
  | .UploadFailure m => "UploadFailure(\"" ++ m ++ "\")"

/-- The debug rendering of a Result of string and S3Result, as eprintln
prints the value returned by each facade call. -/
def resultDebugFmt : Except S3Result String → String
  | .ok s => "Ok(\"" ++ s ++ "\")"
  | .error e => "Err(" ++ e.debugFmt ++ ")"

/-- The facade-level steps main performs, one per function call it makes
against the store. -/
inductive Step where
  | listBucket
  | uploadFile (filename : String)
  | headFile (filename : String)
  | deleteFile (filename : String)
  deriving DecidableEq

/-- How the process ends: with an exit code, or by panicking. -/
inductive ExitStatus where
  | code (n : Nat)
  | panicked
  deriving DecidableEq

/-- Everything observable about one run of main: the facade steps taken in
order, the requests that reached the transport in order, the lines printed
to each stream, and how the process ended. -/
structure MainTrace where
  steps : List Step
  requests : List Request
  stdoutLines : List String
  stderrLines : List String
  exit : ExitStatus
  deriving DecidableEq

/-- Lines 176 to 225 of the source, after the configuration is loaded and
the client built: send one ListObjectsV2 request for the configured bucket;
on error print the failure to stderr and exit with code 1; otherwise print
the two header lines and every key (unwrap on each key, so a keyless object
panics), then call s3_upload_file, s3_head_file and s3_delete_file on the
fixed name test_file.txt in that order, printing a progress line to stdout
before each call and the debug rendering of each result to stderr, and fall
off the end of main with exit code 0. -/
def mainRun (cfg : S3Configuration)
    (pages : Option String → Except SdkError ListObjectsV2Output)
    (from_path : Except String ByteStreamV)
    (putSend : ByteStreamV → Except SdkError PutObjectOutput)
    (headSend : Except SdkError HeadObjectOutput)
    (deleteSend : Except SdkError DeleteObjectOutput) : MainTrace :=
  let bucket := cfg.backup_s3_bucket
  match pages none with
  | .error e =>
    { steps := [Step.listBucket]
      requests := [Request.listObjectsV2 bucket none]
      stdoutLines := []
      stderrLines := ["Failed to pull files: " ++ e.dbg]
      exit := ExitStatus.code 1 }
  | .ok files =>
    let objs := (files.contents).getD []
    if objs.all (fun o => o.key.isSome) then
      let keys := objs.filterMap (fun o => o.key)
      let upload := s3_upload_file "test_file.txt" bucket from_path putSend
      let headr := s3_head_file "test_file.txt" bucket headSend
      let deleter := s3_delete_file "test_file.txt" bucket deleteSend
      { steps := [Step.listBucket, Step.uploadFile "test_file.txt",
                  Step.headFile "test_file.txt", Step.deleteFile "test_file.txt"]
        requests := Request.listObjectsV2 bucket none ::
          (upload.1 ++ headr.1 ++ deleter.1)
        stdoutLines := ["listing files...", "================"] ++ keys ++
          ["Uploading test_file.txt", "HEAD test_file.txt", "DELETE test_file.txt"]
        stderrLines := [resultDebugFmt upload.2, resultDebugFmt headr.2,
          resultDebugFmt deleter.2]
        exit := ExitStatus.code 0 }
    else
      { steps := [Step.listBucket]
        requests := [Request.listObjectsV2 bucket none]
        stdoutLines := ["listing files...", "================"]
        stderrLines := []
        exit := ExitStatus.panicked }

/-- The whole of main, lines 158 to 225: load and parse the configuration
(panic on a parse failure), build the credentials and the client (panic on
an unparseable endpoint override), then run the scripted sequence. -/
def fullMain (raw : RawConfig) (uriFromStr : String → Option Uri)
    (pages : Option String → Except SdkError ListObjectsV2Output)
    (from_path : Except String ByteStreamV)
    (putSend : ByteStreamV → Except SdkError PutObjectOutput)
    (headSend : Except SdkError HeadObjectOutput)
    (deleteSend : Except SdkError DeleteObjectOutput) : MainTrace :=
  match S3Configuration.new raw with
  | .panicked =>
    { steps := [], requests := [], stdoutLines := [], stderrLines := []
      exit := ExitStatus.panicked }
  | .ok cfg =>
    let creds := Credentials.from_keys cfg.backup_s3_access_key_id
      cfg.backup_s3_secret_access_key none
    match get_client uriFromStr creds cfg.backup_s3_region cfg.backup_s3_endpoint with
    | .panicked =>
      { steps := [], requests := [], stdoutLines := [], stderrLines := []
        exit := ExitStatus.panicked }
    | .ok _client =>
      mainRun cfg pages from_path putSend headSend deleteSend

/-- The scripted step sequence of main. -/
def script : List Step :=
  [Step.listBucket, Step.uploadFile "test_file.txt",
   Step.headFile "test_file.txt", Step.deleteFile "test_file.txt"]

/-- Bucket contents as a set of (bucket, key, bytes) entries, used to state
that an operation leaves the store unchanged. -/
def Store := List (String × String × List UInt8)

/-- The effect of one request on the store: a put inserts (replacing any
entry under the same bucket and key), a delete removes, and the read-only
operations change nothing. -/
def applyRequest (store : Store) : Request → Store
  | Request.putObject bucket key body =>
    (bucket, key, body) :: store.filter (fun e => !(e.1 == bucket && e.2.1 == key))
  | Request.deleteObject bucket key =>
    store.filter (fun e => !(e.1 == bucket && e.2.1 == key))
  | _ => store

/-- The effect of a request sequence on the store. -/
def applyRequests (reqs : List Request) (store : Store) : Store :=
  reqs.foldl applyRequest store

/-!
Concrete fixtures used by the counterexample and witness theorems below.
-/

/-- A bucket whose listing spans three pages of two, two and one objects,
chained by the continuation tokens t1 and t2. -/
def threePages : Option String → Except SdkError ListObjectsV2Output
  | none => .ok ⟨some [⟨some "k1"⟩, ⟨some "k2"⟩], some "t1"⟩
  | some t =>
    if t = "t1" then .ok ⟨some [⟨some "k3"⟩, ⟨some "k4"⟩], some "t2"⟩
    else if t = "t2" then .ok ⟨some [⟨some "k5"⟩], none⟩
    else .error ⟨none, "unknown continuation token"⟩

/-- An SDK head error whose underlying response has HTTP status 404. -/
def eNotFound : SdkError :=
  ⟨some 404, "ServiceError(NotFound, status 404)"⟩

/-- An SDK head error whose underlying response has HTTP status 500. -/
def eServer : SdkError :=
  ⟨some 500, "ServiceError(InternalError, status 500)"⟩

/-- A single-page listing response whose one object carries no key. -/
def c3Pages : Option String → Except SdkError ListObjectsV2Output :=
  fun _ => .ok ⟨some [⟨none⟩], none⟩

/-- A single-page listing response, successful, whose second object carries
no key. -/
def c4Pages : Option String → Except SdkError ListObjectsV2Output :=
  fun _ => .ok ⟨some [⟨some "present"⟩, ⟨none⟩], none⟩

/-- A concrete configuration record. -/
def cfgA : S3Configuration :=
  ⟨"AKIAEXAMPLE", "secretkey", "test-bucket", "us-east-1", none⟩

/-- A listing response for a bucket holding no objects at all. -/
def emptyPages : Option String → Except SdkError ListObjectsV2Output :=
  fun _ => .ok ⟨none, none⟩

/-- A configuration file that defines every mandatory field except the
bucket. -/
def rawMissingBucket : RawConfig :=
  ⟨some "AKIAEXAMPLE", some "secretkey", none, some "us-east-1", none⟩

/-- A complete configuration file with no endpoint override. -/
def rawComplete : RawConfig :=
  ⟨some "AKIAEXAMPLE", some "secretkey", some "test-bucket", some "us-east-1", none⟩

/-- The debug rendering of an SDK error whose text carries the entire
response body the provider returned, with nothing cut off. -/
def bigDbg : String :=
  "ServiceError(SlowDown, status 503, body: the provider returned this " ++
  "entire response body and the program carries every character of it " ++
  "into the failure message without applying any truncation at all)"

/-- A URI parser oracle that accepts every string. -/
def acceptAll : String → Option Uri := fun s => some ⟨s⟩

/-- A URI parser oracle that rejects every string. -/
def rejectAll : String → Option Uri := fun _ => none

/-- A single-page listing response with two present keys. -/
def goodPages : Option String → Except SdkError ListObjectsV2Output :=
  fun _ => .ok ⟨some [⟨some "a.txt"⟩, ⟨some "b.txt"⟩], none⟩

/-- A listing transport that always fails. -/
def failPages : Option String → Except SdkError ListObjectsV2Output :=
  fun _ => .error ⟨none, "DispatchFailure(connection refused)"⟩

/-- A successfully opened byte stream holding the two bytes hi. -/
def bsHi : ByteStreamV := ⟨[104, 105]⟩

/-- A put transport that always fails with the big error above. -/
def putFail : ByteStreamV → Except SdkError PutObjectOutput :=
  fun _ => .error ⟨some 503, bigDbg⟩

/-- A put transport that always succeeds. -/
def putOk : ByteStreamV → Except SdkError PutObjectOutput :=
  fun _ => .ok ⟨"PutObjectOutput"⟩

/-- Decidable equality for the Except values the operations return. -/
instance exceptDecEq {ε α : Type} [DecidableEq ε] [DecidableEq α] :
    DecidableEq (Except ε α) := fun x y =>
  match x, y with
  | .ok a, .ok b =>
    if h : a = b then .isTrue (by rw [h])
    else .isFalse (fun hc => h (Except.ok.inj hc))
  | .ok _, .error _ => .isFalse (fun hc => Except.noConfusion hc)
  | .error _, .ok _ => .isFalse (fun hc => Except.noConfusion hc)
  | .error a, .error b =>
    if h : a = b then .isTrue (by rw [h])
    else .isFalse (fun hc => h (Except.error.inj hc))

/-!
Theorems settling the claims.
-/

/-- C1 counterexample: on a bucket whose listing spans three pages of two,
two and one objects chained by continuation tokens, the list operation of
the source issues a single request with no continuation token and yields
only the two keys of the first page, while the concatenation, in insertion
order, of the summaries of every page (which the spec-modelled paginating
list produces) has five keys. -/
theorem C1_counterexample :
    list_objects "test-bucket" threePages =
      ([Request.listObjectsV2 "test-bucket" none], RunResult.ok ["k1", "k2"]) ∧
    list_objects_paginated threePages 4 none =
      .ok ["k1", "k2", "k3", "k4", "k5"] ∧
    (["k1", "k2"] : List String) ≠ ["k1", "k2", "k3", "k4", "k5"] :=
  ⟨rfl, rfl, by decide⟩

/-- C1 amended: the list operation issues exactly one ListObjectsV2 request,
with no continuation token; its outcome depends only on the first page the
transport returns; and on a fully keyed successful page it yields exactly
the keys of that first page, in order. It does not paginate. -/
theorem C1_amended :
    (∀ (bucket : String)
       (pages : Option String → Except SdkError ListObjectsV2Output),
      (list_objects bucket pages).1 = [Request.listObjectsV2 bucket none]) ∧
    (∀ (bucket : String)
       (pages pages2 : Option String → Except SdkError ListObjectsV2Output),
      pages none = pages2 none →
      list_objects bucket pages = list_objects bucket pages2) ∧
    (∀ (bucket : String)
       (pages : Option String → Except SdkError ListObjectsV2Output)
       (out : ListObjectsV2Output),
      pages none = .ok out →
      ((out.contents).getD []).all (fun o => o.key.isSome) = true →
      (list_objects bucket pages).2 =
        RunResult.ok (((out.contents).getD []).filterMap (fun o => o.key))) := by
  refine ⟨fun _ _ => rfl, ?_, ?_⟩
  · intro bucket pages pages2 h
    simp [list_objects, h]
  · intro bucket pages out h hall
    simp [list_objects, h, hall]

/-- C1 witness: the outcome of the list operation on the three-page bucket
is unchanged when every page after the first is made unreachable. -/
theorem C1_witness :
    list_objects "test-bucket" threePages =
      list_objects "test-bucket" (fun _ => threePages none) :=
  C1_amended.2.1 "test-bucket" threePages (fun _ => threePages none) rfl

/-- C2 counterexample: a head failure whose underlying response has HTTP
status 404 is returned as the generic HeadError kind, the same constructor
as a status 500 failure; there is no dedicated NotFound kind, and the
success value is a debug-formatted string rather than parsed metadata. -/
theorem C2_counterexample :
    eNotFound.status = some 404 ∧
    (s3_head_file "test_file.txt" "test-bucket" (.error eNotFound)).2 =
      .error (S3Result.HeadError
        ("Failed head_object() file: ServiceError(NotFound, status 404)")) ∧
    errKind ((s3_head_file "test_file.txt" "test-bucket" (.error eNotFound)).2) =
      some S3Kind.headError ∧
    errKind ((s3_head_file "test_file.txt" "test-bucket" (.error eNotFound)).2) =
      errKind ((s3_head_file "test_file.txt" "test-bucket" (.error eServer)).2) :=
  ⟨rfl, rfl, rfl, rfl⟩

/-- C2 amended: every head failure, whatever the status of the underlying
response (404 included), yields the single generic HeadError kind carrying
the fixed prefix followed by the debug rendering of the SDK error; every
success yields the debug-formatted response string, not parsed object
metadata. -/
theorem C2_amended :
    (∀ (filename bucket : String) (e : SdkError),
      (s3_head_file filename bucket (.error e)).2 =
        .error (S3Result.HeadError ("Failed head_object() file: " ++ e.dbg))) ∧
    (∀ (filename bucket : String) (r : HeadObjectOutput),
      (s3_head_file filename bucket (.ok r)).2 = .ok r.dbg) :=
  ⟨fun _ _ _ => rfl, fun _ _ _ => rfl⟩

/-- C5: on a bucket containing zero objects (whether the response omits the
contents field or carries an empty list) the list operation succeeds and
yields the empty sequence, not an error. -/
theorem C5_empty_bucket :
    ∀ (bucket : String)
      (pages : Option String → Except SdkError ListObjectsV2Output)
      (tok : Option String),
    (pages none = .ok ⟨none, tok⟩ ∨ pages none = .ok ⟨some [], tok⟩) →
    (list_objects bucket pages).2 = RunResult.ok [] := by
  intro bucket pages tok h
  rcases h with h | h <;> simp [list_objects, h]

/-- C5 witness: the list operation on a concrete empty bucket yields the
empty sequence. -/
theorem C5_witness :
    (list_objects "test-bucket" emptyPages).2 = RunResult.ok [] :=
  C5_empty_bucket "test-bucket" emptyPages none (Or.inl rfl)

/-- C9: when opening the local file fails, the upload operation returns
FileOpenFail built from the open error, issues no request at all (in
particular no PutObject request), and therefore leaves any bucket store
unchanged. -/
theorem C9_no_put_before_open :
    ∀ (filename bucket msg : String)
      (send : ByteStreamV → Except SdkError PutObjectOutput),
    s3_upload_file filename bucket (.error msg) send =
      ([], .error (S3Result.FileOpenFail ("Failed to open file: " ++ msg))) ∧
    (∀ store : Store,
      applyRequests (s3_upload_file filename bucket (.error msg) send).1 store =
        store) := by
  intro filename bucket msg send
  exact ⟨rfl, fun store => rfl⟩

/-- C10: when the optional endpoint override is present but the URI parser
rejects it, client construction panics rather than returning any error
value; when the override is absent, the client keeps the default endpoint
and the URI parser is never consulted. -/
theorem C10_endpoint :
    (∀ (uriFromStr : String → Option Uri) (creds : Credentials)
       (region s : String),
      uriFromStr s = none →
      get_client uriFromStr creds region (some s) = StartupStep.panicked) ∧
    (∀ (uriFromStr uriFromStr2 : String → Option Uri) (creds : Credentials)
       (region : String),
      get_client uriFromStr creds region none = StartupStep.ok ⟨creds, region, none⟩ ∧
      get_client uriFromStr creds region none =
        get_client uriFromStr2 creds region none) := by
  constructor
  · intro u creds region s h
    simp [get_client, h]
  · intro u u2 creds region
    exact ⟨rfl, rfl⟩

/-- C10 witness: with a parser that rejects every string, building the
client on a present override panics. -/
theorem C10_witness :
    get_client rejectAll ⟨"AKIAEXAMPLE", "secretkey", none⟩ "us-east-1"
      (some "not a uri") = StartupStep.panicked :=
  C10_endpoint.1 rejectAll ⟨"AKIAEXAMPLE", "secretkey", none⟩ "us-east-1"
    "not a uri" rfl

/-- C3 counterexample: on a successful listing response whose single object
carries no key, the list operation panics: it produces neither a success
value nor an error value, so not every outcome of the underlying exchange
is mapped to exactly one of the two. -/
theorem C3_counterexample :
    (list_objects "test-bucket" c3Pages).2 = RunResult.panicked ∧
    ((list_objects "test-bucket" c3Pages).2).isOkB = false ∧
    ((list_objects "test-bucket" c3Pages).2).isErrB = false :=
  ⟨rfl, rfl, rfl⟩

/-- C3 amended: head, put and delete each return exactly one outcome, fully
determined by the underlying exchange and never swallowed: success carries
the formatted response, a failed exchange carries the single corresponding
taxonomy error (and a failed file open carries FileOpenFail). The list
operation does the same, except that a successful response containing an
object without a key makes it panic instead of returning either outcome. -/
theorem C3_amended :
    (∀ (filename bucket : String) (send : Except SdkError HeadObjectOutput),
      (∀ r, send = .ok r → (s3_head_file filename bucket send).2 = .ok r.dbg) ∧
      (∀ e, send = .error e → (s3_head_file filename bucket send).2 =
        .error (S3Result.HeadError ("Failed head_object() file: " ++ e.dbg)))) ∧
    (∀ (filename bucket : String) (from_path : Except String ByteStreamV)
       (send : ByteStreamV → Except SdkError PutObjectOutput),
      (∀ m, from_path = .error m →
        (s3_upload_file filename bucket from_path send).2 =
          .error (S3Result.FileOpenFail ("Failed to open file: " ++ m))) ∧
      (∀ bs, from_path = .ok bs →
        (∀ r, send bs = .ok r →
          (s3_upload_file filename bucket from_path send).2 = .ok r.dbg) ∧
        (∀ e, send bs = .error e →
          (s3_upload_file filename bucket from_path send).2 =
            .error (S3Result.UploadFailure ("Failed to upload file: " ++ e.dbg))))) ∧
    (∀ (filename bucket : String) (send : Except SdkError DeleteObjectOutput),
      (∀ r, send = .ok r → (s3_delete_file filename bucket send).2 = .ok r.dbg) ∧
      (∀ e, send = .error e → (s3_delete_file filename bucket send).2 =
        .error (S3Result.DeleteFailure ("Failed to upload file: " ++ e.dbg)))) ∧
    (∀ (bucket : String)
       (pages : Option String → Except SdkError ListObjectsV2Output),
      (∀ e, pages none = .error e →
        (list_objects bucket pages).2 = RunResult.err e) ∧
      (∀ out, pages none = .ok out →
        (((out.contents).getD []).all (fun o => o.key.isSome) = true →
          (list_objects bucket pages).2 =
            RunResult.ok (((out.contents).getD []).filterMap (fun o => o.key))) ∧
        (((out.contents).getD []).all (fun o => o.key.isSome) = false →
          (list_objects bucket pages).2 = RunResult.panicked))) := by
  refine ⟨?_, ?_, ?_, ?_⟩
  · intro filename bucket send
    exact ⟨fun r h => by subst h; rfl, fun e h => by subst h; rfl⟩
  · intro filename bucket from_path send
    constructor
    · intro m h; subst h; rfl
    · intro bs h; subst h
      constructor
      · intro r h2; simp [s3_upload_file, h2]
      · intro e h2; simp [s3_upload_file, h2]
  · intro filename bucket send
    exact ⟨fun r h => by subst h; rfl, fun e h => by subst h; rfl⟩
  · intro bucket pages
    constructor
    · intro e h; simp [list_objects, h]
    · intro out h
      exact ⟨fun hall => by simp [list_objects, h, hall],
             fun hall => by simp [list_objects, h, hall]⟩

/-- C3 witness: a concrete failed head exchange is mapped to exactly the
HeadError outcome. -/
theorem C3_witness :
    (s3_head_file "test_file.txt" "test-bucket" (.error eServer)).2 =
      .error (S3Result.HeadError
        ("Failed head_object() file: " ++ eServer.dbg)) :=
  (C3_amended.1 "test_file.txt" "test-bucket" (.error eServer)).2 eServer rfl

/-- C4 counterexample: on a run whose initial listing succeeds but whose
page contains an object without a key, the process neither exits with code
1 (the listing did not fail) nor with code 0: it panics, so the exit code
is not 0 in every case where the initial listing succeeds. -/
theorem C4_counterexample :
    (mainRun cfgA c4Pages (.ok bsHi) putOk (.ok ⟨"HeadObjectOutput"⟩)
      (.ok ⟨"DeleteObjectOutput"⟩)).exit = ExitStatus.panicked ∧
    isOkE (c4Pages none) = true ∧
    ExitStatus.panicked ≠ ExitStatus.code 0 ∧
    ExitStatus.panicked ≠ ExitStatus.code 1 :=
  ⟨rfl, rfl, by decide, by decide⟩

/-- C4 amended: the process exits with code 1 exactly when the initial
listing returns an error; when the listing succeeds and every listed object
carries a key, the process exits with code 0 whatever the upload, head and
delete outcomes are; a successful listing containing a keyless object
panics the process instead. -/
theorem C4_amended :
    ∀ (cfg : S3Configuration)
      (pages : Option String → Except SdkError ListObjectsV2Output)
      (from_path : Except String ByteStreamV)
      (putSend : ByteStreamV → Except SdkError PutObjectOutput)
      (headSend : Except SdkError HeadObjectOutput)
      (deleteSend : Except SdkError DeleteObjectOutput),
    (∀ e, pages none = .error e →
      (mainRun cfg pages from_path putSend headSend deleteSend).exit =
        ExitStatus.code 1) ∧
    (∀ out, pages none = .ok out →
      ((out.contents).getD []).all (fun o => o.key.isSome) = true →
      (mainRun cfg pages from_path putSend headSend deleteSend).exit =
        ExitStatus.code 0) := by
  intro cfg pages from_path putSend headSend deleteSend
  constructor
  · intro e h; simp [mainRun, h]
  · intro out h hall; simp [mainRun, h, hall]

/-- C4 witness: a run whose file open, head and delete all fail still exits
with code 0, because the initial listing succeeded. -/
theorem C4_witness :
    (mainRun cfgA goodPages (.error "No such file or directory") putFail
      (.error eNotFound) (.error eServer)).exit = ExitStatus.code 0 :=
  (C4_amended cfgA goodPages (.error "No such file or directory") putFail
      (.error eNotFound) (.error eServer)).2
    ⟨some [⟨some "a.txt"⟩, ⟨some "b.txt"⟩], none⟩ rfl rfl

/-- C6 counterexample: a configuration file missing the mandatory bucket
field fails to parse and startup panics; no ConfigError value (or any other
error value) is returned, the process simply aborts. -/
theorem C6_counterexample :
    S3Configuration.from_toml rawMissingBucket = none ∧
    S3Configuration.new rawMissingBucket = StartupStep.panicked :=
  ⟨rfl, rfl⟩

/-- C6 amended: startup parsing does validate the presence of the four
mandatory fields, in that it panics exactly when one of them is absent (the
endpoint may be absent freely); the failure is a fatal panic, not a typed
ConfigError, and indeed the closed error taxonomy of the program has only
the five kinds DeleteFailure, FileOpenFail, HeadError, Success and
UploadFailure, none of them a configuration error. -/
theorem C6_amended :
    (∀ raw : RawConfig,
      S3Configuration.new raw = StartupStep.panicked ↔
        (raw.access_key_id = none ∨ raw.secret_access_key = none ∨
         raw.bucket = none ∨ raw.region = none)) ∧
    (∀ r : S3Result,
      r.kind = S3Kind.deleteFailure ∨ r.kind = S3Kind.fileOpenFail ∨
      r.kind = S3Kind.headError ∨ r.kind = S3Kind.success ∨
      r.kind = S3Kind.uploadFailure) := by
  constructor
  · intro raw
    obtain ⟨a, s, b, r, e⟩ := raw
    cases a <;> cases s <;> cases b <;> cases r <;>
      simp [S3Configuration.new, S3Configuration.from_toml]
  · intro r; cases r <;> simp [S3Result.kind]

/-- C7 counterexample: a failed put whose SDK error renders with the entire
response body yields an UploadFailure message that is strictly longer than
that whole rendering, so nothing was truncated to an excerpt; and a failed
delete yields a DeleteFailure whose message even carries the copy-pasted
upload prefix. -/
theorem C7_counterexample :
    (s3_upload_file "test_file.txt" "test-bucket" (.ok bsHi) putFail).2 =
      .error (S3Result.UploadFailure ("Failed to upload file: " ++ bigDbg)) ∧
    bigDbg.length < ("Failed to upload file: " ++ bigDbg).length ∧
    (s3_delete_file "test_file.txt" "test-bucket"
        (.error ⟨some 500, "AccessDenied"⟩)).2 =
      .error (S3Result.DeleteFailure "Failed to upload file: AccessDenied") := by
  refine ⟨rfl, ?_, rfl⟩
  rw [String.length_append]
  have h : ("Failed to upload file: " : String).length = 23 := by decide
  omega

/-- C7 amended: a failed put yields UploadFailure carrying one string, the
fixed prefix of length 23 followed by the entire debug rendering of the SDK
error, untruncated (its length is exactly 23 plus the length of that
rendering, so the status appears only insofar as the rendering contains
it); a failed delete yields DeleteFailure carrying the same copy-pasted
upload prefix followed by the entire rendering. -/
theorem C7_amended :
    (∀ (filename bucket : String) (bs : ByteStreamV)
       (send : ByteStreamV → Except SdkError PutObjectOutput) (e : SdkError),
      send bs = .error e →
      (s3_upload_file filename bucket (.ok bs) send).2 =
        .error (S3Result.UploadFailure ("Failed to upload file: " ++ e.dbg)) ∧
      ("Failed to upload file: " ++ e.dbg).length = 23 + e.dbg.length) ∧
    (∀ (filename bucket : String) (e : SdkError),
      (s3_delete_file filename bucket (.error e)).2 =
        .error (S3Result.DeleteFailure ("Failed to upload file: " ++ e.dbg))) := by
  constructor
  · intro filename bucket bs send e h
    constructor
    · simp [s3_upload_file, h]
    · rw [String.length_append]
      have h23 : ("Failed to upload file: " : String).length = 23 := by decide
      omega
  · intro filename bucket e; rfl

set_option maxRecDepth 8192 in
/-- C7 witness: the failed put with the full 503 rendering carries the
prefix plus the whole rendering, with the stated length. -/
theorem C7_witness :
    (s3_upload_file "test_file.txt" "test-bucket" (.ok bsHi) putFail).2 =
      .error (S3Result.UploadFailure ("Failed to upload file: " ++ bigDbg)) ∧
    ("Failed to upload file: " ++ bigDbg).length = 23 + bigDbg.length :=
  C7_amended.1 "test_file.txt" "test-bucket" bsHi putFail ⟨some 503, bigDbg⟩ rfl

/-- C8: main performs exactly one scripted sequence. In every run the steps
taken are a prefix of list bucket, upload test_file.txt, head test_file.txt,
delete test_file.txt, in that order; and whenever the configuration parses,
the client builds and the initial listing succeeds with every key present,
the run performs exactly that sequence, prints the listing header, the
listed keys and the three progress lines to standard output, prints the
debug rendering of each of the three results to standard error, and exits
with code 0. -/
theorem C8_script :
    ∀ (raw : RawConfig) (uriFromStr : String → Option Uri)
      (pages : Option String → Except SdkError ListObjectsV2Output)
      (from_path : Except String ByteStreamV)
      (putSend : ByteStreamV → Except SdkError PutObjectOutput)
      (headSend : Except SdkError HeadObjectOutput)
      (deleteSend : Except SdkError DeleteObjectOutput),
    (∃ rest,
      (fullMain raw uriFromStr pages from_path putSend headSend deleteSend).steps
        ++ rest = script) ∧
    (∀ (cfg : S3Configuration) (client : Client) (out : ListObjectsV2Output),
      S3Configuration.new raw = StartupStep.ok cfg →
      get_client uriFromStr
        (Credentials.from_keys cfg.backup_s3_access_key_id
          cfg.backup_s3_secret_access_key none)
        cfg.backup_s3_region cfg.backup_s3_endpoint = StartupStep.ok client →
      pages none = .ok out →
      ((out.contents).getD []).all (fun o => o.key.isSome) = true →
      fullMain raw uriFromStr pages from_path putSend headSend deleteSend =
        { steps := script
          requests := Request.listObjectsV2 cfg.backup_s3_bucket none ::
            ((s3_upload_file "test_file.txt" cfg.backup_s3_bucket from_path putSend).1 ++
             (s3_head_file "test_file.txt" cfg.backup_s3_bucket headSend).1 ++
             (s3_delete_file "test_file.txt" cfg.backup_s3_bucket deleteSend).1)
          stdoutLines := ["listing files...", "================"] ++
            ((out.contents).getD []).filterMap (fun o => o.key) ++
            ["Uploading test_file.txt", "HEAD test_file.txt",
             "DELETE test_file.txt"]
          stderrLines :=
            [resultDebugFmt
              (s3_upload_file "test_file.txt" cfg.backup_s3_bucket from_path putSend).2,
             resultDebugFmt
              (s3_head_file "test_file.txt" cfg.backup_s3_bucket headSend).2,
             resultDebugFmt
              (s3_delete_file "test_file.txt" cfg.backup_s3_bucket deleteSend).2]
          exit := ExitStatus.code 0 }) := by
  intro raw uriFromStr pages from_path putSend headSend deleteSend
  constructor
  · cases hc : S3Configuration.new raw with
    | panicked => exact ⟨script, by simp [fullMain, hc, script]⟩
    | ok cfg =>
      cases hg : get_client uriFromStr
          (Credentials.from_keys cfg.backup_s3_access_key_id
            cfg.backup_s3_secret_access_key none)
          cfg.backup_s3_region cfg.backup_s3_endpoint with
      | panicked => exact ⟨script, by simp [fullMain, hc, hg, script]⟩
      | ok client =>
        cases hp : pages none with
        | error e =>
          exact ⟨[Step.uploadFile "test_file.txt", Step.headFile "test_file.txt",
                   Step.deleteFile "test_file.txt"],
                 by simp [fullMain, hc, hg, mainRun, hp, script]⟩
        | ok out =>
          cases hall : ((out.contents).getD []).all (fun o => o.key.isSome) with
          | false =>
            exact ⟨[Step.uploadFile "test_file.txt", Step.headFile "test_file.txt",
                     Step.deleteFile "test_file.txt"],
                   by simp [fullMain, hc, hg, mainRun, hp, hall, script]⟩
          | true =>
            exact ⟨[], by simp [fullMain, hc, hg, mainRun, hp, hall, script]⟩
  · intro cfg client out hc hg hp hall
    simp [fullMain, hc, hg, mainRun, hp, hall, script]

/-- C8 witness: a concrete complete run with a parsing configuration, a
two-object listing and successful upload, head and delete performs the full
script with the expected streams and exit code. -/
theorem C8_witness :
    fullMain rawComplete acceptAll goodPages (.ok bsHi) putOk
      (.ok ⟨"HeadObjectOutput"⟩) (.ok ⟨"DeleteObjectOutput"⟩) =
    { steps := script
      requests := [Request.listObjectsV2 "test-bucket" none,
        Request.putObject "test-bucket" "test_file.txt" [104, 105],
        Request.headObject "test-bucket" "test_file.txt",
        Request.deleteObject "test-bucket" "test_file.txt"]
      stdoutLines := ["listing files...", "================", "a.txt", "b.txt",
        "Uploading test_file.txt", "HEAD test_file.txt", "DELETE test_file.txt"]
      stderrLines := ["Ok(\"PutObjectOutput\")", "Ok(\"HeadObjectOutput\")",
        "Ok(\"DeleteObjectOutput\")"]
      exit := ExitStatus.code 0 } :=
  (C8_script rawComplete acceptAll goodPages (.ok bsHi) putOk
      (.ok ⟨"HeadObjectOutput"⟩) (.ok ⟨"DeleteObjectOutput"⟩)).2
    cfgA ⟨⟨"AKIAEXAMPLE", "secretkey", none⟩, "us-east-1", none⟩
    ⟨some [⟨some "a.txt"⟩, ⟨some "b.txt"⟩], none⟩ rfl rfl rfl rfl

end S3M
